import Mathlib

/-!
Verification of the Policy-Vault client forms: a shallow embedding of the
validation schemas and submit handlers of `PolicyForm` and `Login`, with
theorems about the validation layer and the submission controller.
-/

namespace PolicyVault

/-- An exact fraction with integer numerator and natural denominator (kept
positive by every constructor below, and unreduced so that all arithmetic
stays kernel-computable). -/
structure Frac where
  n : Int
  d : Nat
  deriving DecidableEq, Repr

/-- The rational value of a fraction. -/
def Frac.val (f : Frac) : ℚ := (f.n : ℚ) / (f.d : ℚ)

/-- A JavaScript number as observed by the validation code: NaN, one of the
two infinities, or a finite value. Finite values are kept as exact
fractions; IEEE-754 rounding of finite values is not modelled, which does
not change any comparison the schema checks make on the inputs considered
here. -/
inductive JSNum where
  | nan
  | posInf
  | negInf
  | num (f : Frac)
  deriving DecidableEq, Repr

/-- Whitespace stripped by JavaScript string-to-number coercion (the common
subset: space, tab, line feed, carriage return, vertical tab, form feed,
no-break space). -/
def isJsWhitespace (c : Char) : Bool :=
  c = ' ' || c = '\t' || c = '\n' || c = '\r' || c = '\x0b' || c = '\x0c' || c = ' '

/-- Strip leading and trailing JavaScript whitespace. -/
def trimJsWs (l : List Char) : List Char :=
  ((l.dropWhile isJsWhitespace).reverse.dropWhile isJsWhitespace).reverse

/-- Value of a list of decimal digit characters. -/
def digitsToNat (l : List Char) : Nat :=
  l.foldl (fun a c => 10 * a + (c.toNat - 48)) 0

/-- Value of one hexadecimal digit character. -/
def hexDigitToNat (c : Char) : Nat :=
  if c.isDigit then c.toNat - 48
  else if 'a' ≤ c && c ≤ 'f' then c.toNat - 87
  else c.toNat - 55

/-- Value of a digit list in the given base. -/
def digitsToNatBase (b : Nat) (l : List Char) : Nat :=
  l.foldl (fun a c => b * a + hexDigitToNat c) 0

def isHexDigit (c : Char) : Bool :=
  c.isDigit || ('a' ≤ c && c ≤ 'f') || ('A' ≤ c && c ≤ 'F')

def isOctDigit (c : Char) : Bool := '0' ≤ c && c ≤ '7'

def isBinDigit (c : Char) : Bool := c = '0' || c = '1'

/-- Parse the exponent suffix of a decimal numeric literal: an optional sign
followed by at least one digit, consuming the whole input. -/
def parseExponent (l : List Char) : Option Int :=
  match l with
  | '+' :: r => if r ≠ [] && r.all (·.isDigit) then some (Int.ofNat (digitsToNat r)) else none
  | '-' :: r => if r ≠ [] && r.all (·.isDigit) then some (-(Int.ofNat (digitsToNat r))) else none
  | r => if r ≠ [] && r.all (·.isDigit) then some (Int.ofNat (digitsToNat r)) else none

/-- Parse an unsigned decimal literal `digits [. digits] [(e|E) exponent]`,
as accepted by JavaScript string-to-number coercion, into an exact
fraction; `none` is NaN. -/
def parseDecimal (l : List Char) : Option Frac :=
  let intPart := l.takeWhile (·.isDigit)
  let rest1 := l.dropWhile (·.isDigit)
  let fracSplit : List Char × List Char :=
    match rest1 with
    | '.' :: r => (r.takeWhile (fun c => c.isDigit), r.dropWhile (fun c => c.isDigit))
    | r => (([] : List Char), r)
  let fracPart := fracSplit.1
  let rest2 := fracSplit.2
  if intPart = [] && fracPart = [] then none
  else
    let expOpt :=
      match rest2 with
      | [] => some (0 : Int)
      | 'e' :: r => parseExponent r
      | 'E' :: r => parseExponent r
      | _ => none
    match expOpt with
    | none => none
    | some e =>
      let mant : Nat := digitsToNat intPart * 10 ^ fracPart.length + digitsToNat fracPart
      match e with
      | .ofNat k => some ⟨(mant * 10 ^ k : Nat), 10 ^ fracPart.length⟩
      | .negSucc k => some ⟨(mant : Nat), 10 ^ fracPart.length * 10 ^ (k + 1)⟩

/-- Parse the body of a radix-prefixed integer literal (after `0x`, `0o` or
`0b`). -/
def parseRadix (isDig : Char → Bool) (base : Nat) (l : List Char) : Option Frac :=
  if l ≠ [] && l.all isDig then some ⟨(digitsToNatBase base l : Nat), 1⟩ else none

/-- The unsigned part of JavaScript numeric-string coercion: `Infinity`, a
radix-prefixed integer (only legal without an explicit sign, as in
JavaScript, where a signed radix literal is NaN), or a decimal literal. -/
def jsNumberUnsigned (allowRadix : Bool) (sign : Int) (l : List Char) : JSNum :=
  if l = "Infinity".toList then (if 0 ≤ sign then .posInf else .negInf)
  else
    let radix : Option Frac :=
      if allowRadix then
        match l with
        | '0' :: 'x' :: r => parseRadix isHexDigit 16 r
        | '0' :: 'X' :: r => parseRadix isHexDigit 16 r
        | '0' :: 'o' :: r => parseRadix isOctDigit 8 r
        | '0' :: 'O' :: r => parseRadix isOctDigit 8 r
        | '0' :: 'b' :: r => parseRadix isBinDigit 2 r
        | '0' :: 'B' :: r => parseRadix isBinDigit 2 r
        | _ => none
      else none
    match radix with
    | some f => .num f
    | none =>
      match parseDecimal l with
      | some f => .num ⟨sign * f.n, f.d⟩
      | none => .nan

/-- Model of JavaScript `Number(s)` on a string: trims whitespace, the empty
string becomes 0, then `Infinity`, signed decimal literals with optional
fraction and exponent, and unsigned radix-prefixed literals; anything else
is NaN. -/
def jsNumber (s : String) : JSNum :=
  match trimJsWs s.toList with
  | [] => .num ⟨0, 1⟩
  | '+' :: r => jsNumberUnsigned false 1 r
  | '-' :: r => jsNumberUnsigned false (-1) r
  | l => jsNumberUnsigned true 1 l

/-- JavaScript `isNaN` on a coerced number. -/
def jsIsNaN : JSNum → Bool
  | .nan => true
  | _ => false

/-- JavaScript `x > 0`; false on NaN. Every fraction built by the coercion
has a positive denominator, so the sign of the numerator is the sign of
the value. -/
def jsGtZero : JSNum → Bool
  | .nan => false
  | .posInf => true
  | .negInf => false
  | .num f => decide (0 < f.n)

/-- JavaScript `x <= 5`; false on NaN. -/
def jsLeFive : JSNum → Bool
  | .nan => false
  | .posInf => false
  | .negInf => true
  | .num f => decide (f.n ≤ 5 * (f.d : Int))

/-- Check for `name`: `z.string().min(3, "Policy name must be at least 3 characters")`. -/
def nameCheck (s : String) : Bool := decide (3 ≤ s.length)

/-- Check for `company`: `z.string().min(2, ...)`. -/
def companyCheck (s : String) : Bool := decide (2 ≤ s.length)

/-- Check for `value`: `val => !isNaN(Number(val)) && Number(val) > 0`. -/
def valueCheck (s : String) : Bool := !jsIsNaN (jsNumber s) && jsGtZero (jsNumber s)

/-- Check for `premium`: `val => !isNaN(Number(val)) && Number(val) > 0`. -/
def premiumCheck (s : String) : Bool := !jsIsNaN (jsNumber s) && jsGtZero (jsNumber s)

/-- Check for `startDate`: `z.string().min(1, "Start date is required")`. -/
def startDateCheck (s : String) : Bool := decide (1 ≤ s.length)

/-- Check for `endDate`: `z.string().min(1, "End date is required")`. -/
def endDateCheck (s : String) : Bool := decide (1 ≤ s.length)

/-- Check for `nominees`:
`val => !isNaN(Number(val)) && Number(val) > 0 && Number(val) <= 5`. -/
def nomineesCheck (s : String) : Bool :=
  !jsIsNaN (jsNumber s) && jsGtZero (jsNumber s) && jsLeFive (jsNumber s)

/-- Characters zod's email format admits in the local part. -/
def emailLocalChar (c : Char) : Bool :=
  c.isAlphanum || c = '_' || c = Char.ofNat 39 || c = '+' || c = '-' || c = '.'

/-- Characters zod's email format admits as the last local-part character
(no dot, no apostrophe). -/
def emailLocalLastChar (c : Char) : Bool :=
  c.isAlphanum || c = '_' || c = '+' || c = '-'

/-- Whether the character list contains two consecutive dots. -/
def hasDoubleDot : List Char → Bool
  | '.' :: '.' :: _ => true
  | _ :: r => hasDoubleDot r
  | [] => false

/-- One non-final domain label: starts alphanumeric, continues with
alphanumerics and hyphens. -/
def emailDomainLabel (l : List Char) : Bool :=
  match l with
  | [] => false
  | c :: r => c.isAlphanum && r.all (fun d => d.isAlphanum || d = '-')

/-- The final domain label: at least two letters. -/
def emailTld (l : List Char) : Bool :=
  decide (2 ≤ l.length) && l.all (·.isAlpha)

/-- Model of `z.string().email(...)`, zod's email regex: the string must not
start with a dot nor contain two consecutive dots; the part before the
single `@` consists of local characters and ends in a letter, digit,
underscore, plus or hyphen; the part after it is one or more
alphanumeric-and-hyphen labels separated by dots, the final label being at
least two letters. -/
def emailCheck (s : String) : Bool :=
  let l := s.toList
  match l.splitOn '@' with
  | [localPart, domain] =>
    !(l.head? == some '.') && !hasDoubleDot l &&
    !localPart.isEmpty && localPart.all emailLocalChar &&
    (match localPart.getLast? with
     | some c => emailLocalLastChar c
     | none => false) &&
    (let labels := domain.splitOn '.'
     decide (2 ≤ labels.length) &&
     labels.dropLast.all emailDomainLabel &&
     (match labels.getLast? with
      | some t => emailTld t
      | none => false))
  | _ => false

/-- Check for `password`: `z.string().min(1, ...)`. -/
def passwordCheck (s : String) : Bool := decide (1 ≤ s.length)

/-- The policy form's field values: react-hook-form state, all inputs
string-typed (defaults in the source are empty strings, nominees "1"). -/
structure PolicyValues where
  name : String
  company : String
  value : String
  premium : String
  startDate : String
  endDate : String
  nominees : String
  deriving DecidableEq, Repr

/-- The login form's field values. -/
structure LoginValues where
  email : String
  password : String
  deriving DecidableEq, Repr

/-- The per-field issue list a check contributes: a failing field is
reported under its name with the schema's configured message. -/
def fieldErrs (ok : Bool) (field msg : String) : List (String × String) :=
  if ok then [] else [(field, msg)]

/-- Model of `zodResolver(formSchema)` for the policy form: every field's
check is evaluated, and all failing fields are reported together. -/
def validatePolicy (st : PolicyValues) : List (String × String) :=
  fieldErrs (nameCheck st.name) "name" "Policy name must be at least 3 characters" ++
  fieldErrs (companyCheck st.company) "company" "Company name must be at least 2 characters" ++
  fieldErrs (valueCheck st.value) "value" "Value must be a positive number" ++
  fieldErrs (premiumCheck st.premium) "premium" "Premium must be a positive number" ++
  fieldErrs (startDateCheck st.startDate) "startDate" "Start date is required" ++
  fieldErrs (endDateCheck st.endDate) "endDate" "End date is required" ++
  fieldErrs (nomineesCheck st.nominees) "nominees" "Nominees must be between 1 and 5"

/-- Validation outcome of the policy form: Valid with the (unchanged)
values, or Invalid with the field-to-message mapping. -/
def policyResolve (st : PolicyValues) : Except (List (String × String)) PolicyValues :=
  match validatePolicy st with
  | [] => .ok st
  | e :: rest => .error (e :: rest)

/-- Model of `zodResolver(formSchema)` for the login form. -/
def validateLogin (lv : LoginValues) : List (String × String) :=
  fieldErrs (emailCheck lv.email) "email" "Please enter a valid email address" ++
  fieldErrs (passwordCheck lv.password) "password" "Password is required"

/-- Validation outcome of the login form. -/
def loginResolve (lv : LoginValues) : Except (List (String × String)) LoginValues :=
  match validateLogin lv with
  | [] => .ok lv
  | e :: rest => .error (e :: rest)

/-- Days in a Gregorian month, as used by JavaScript parsing of date-only
ISO strings. -/
def daysInMonth (y m : Nat) : Nat :=
  if m = 1 || m = 3 || m = 5 || m = 7 || m = 8 || m = 10 || m = 12 then 31
  else if m = 4 || m = 6 || m = 9 || m = 11 then 30
  else if y % 4 = 0 && (y % 100 != 0 || y % 400 = 0) then 29
  else 28

/-- Parse a date-only string `YYYY-MM-DD` to (year, month, day), accepting
exactly the calendar-valid dates. Any other string is this model's
Invalid Date: JavaScript `new Date(s)` with a NaN time value, whose
`toISOString` throws a RangeError. The form's date inputs only ever
produce this shape, so the other formats JavaScript's parser tolerates
are not modelled. -/
def parseYMD (s : String) : Option (Nat × Nat × Nat) :=
  match s.toList with
  | [y1, y2, y3, y4, h1, m1, m2, h2, d1, d2] =>
    if y1.isDigit && y2.isDigit && y3.isDigit && y4.isDigit &&
       h1 = '-' && m1.isDigit && m2.isDigit && h2 = '-' && d1.isDigit && d2.isDigit then
      let y := digitsToNat [y1, y2, y3, y4]
      let m := digitsToNat [m1, m2]
      let d := digitsToNat [d1, d2]
      if 1 ≤ m ∧ m ≤ 12 ∧ 1 ≤ d ∧ d ≤ daysInMonth y m then some (y, m, d) else none
    else none
  | _ => none

/-- Left-pad a numeral with zeros to the given width. -/
def padNat (width n : Nat) : String :=
  String.mk (List.replicate (width - (toString n).length) '0') ++ toString n

/-- `toISOString` of a UTC-midnight date. -/
def ymdToISOString (ymd : Nat × Nat × Nat) : String :=
  padNat 4 ymd.1 ++ "-" ++ padNat 2 ymd.2.1 ++ "-" ++ padNat 2 ymd.2.2 ++ "T00:00:00.000Z"

/-- Model of `new Date(s).toISOString()`: `some` of the ISO8601 timestamp,
or `none` when the conversion throws on an Invalid Date. -/
def jsDateISO (s : String) : Option String := (parseYMD s).map ymdToISOString

/-- A JavaScript object value occurring in the dispatched payload. -/
inductive JVal where
  | s (v : String)
  | n (v : JSNum)
  deriving DecidableEq, Repr

/-- The `newPolicy` object literal built in the policy `onSubmit`, as an
ordered key/value record, given the already-converted ISO date strings. -/
def newPolicy (d : PolicyValues) (startISO endISO : String) : List (String × JVal) :=
  [("name", .s d.name),
   ("company", .s d.company),
   ("value", .n (jsNumber d.value)),
   ("premium", .n (jsNumber d.premium)),
   ("startDate", .s startISO),
   ("endDate", .s endISO),
   ("status", .s "Active")]

/-- A notification emitted through the toast collaborator. -/
inductive ToastMsg where
  | success (m : String)
  | error (m : String)
  deriving DecidableEq, Repr

/-- Oracle for the outcome the awaited remote collaborator call would have:
resolve with a value, or reject with an error whose `message` is `none`
(absent) or a string (possibly empty, which JavaScript `||` treats as
falsy). -/
inductive Remote (α : Type) where
  | resolves (a : α)
  | rejects (msg : Option String)
  deriving DecidableEq, Repr

/-- JavaScript `m || fallback` applied to an error's message. -/
def jsOrElse (m : Option String) (fallback : String) : String :=
  match m with
  | some s => if s = "" then fallback else s
  | none => fallback

/-- Everything observable after one run of the policy `onSubmit` handler. -/
structure PolicyResult (α : Type) where
  submitting : Bool
  remoteCalled : Bool
  toasts : List ToastMsg
  added : Option α
  closed : Bool
  fields : PolicyValues
  deriving DecidableEq, Repr

/-- Model of the policy `onSubmit`: inside the `try`, both dates are
converted (an Invalid Date makes `toISOString` throw a RangeError whose
message is "Invalid time value"), the `newPolicy` payload is dispatched
through `PolicyService.addPolicy` (`remote` is the oracle for that call),
and the success path runs `onAddPolicy`, a success toast and `onClose`;
the `catch` emits `error.message || 'Failed to add policy. Please try
again.'`; the `finally` clears `isSubmitting` on every path, and no path
writes to the form's field values. -/
def policyOnSubmit {α : Type} (d : PolicyValues) (remote : Remote α) : PolicyResult α :=
  match jsDateISO d.startDate, jsDateISO d.endDate with
  | some _, some _ =>
    match remote with
    | .resolves saved =>
      { submitting := false, remoteCalled := true,
        toasts := [.success "Policy added successfully"],
        added := some saved, closed := true, fields := d }
    | .rejects m =>
      { submitting := false, remoteCalled := true,
        toasts := [.error (jsOrElse m "Failed to add policy. Please try again.")],
        added := none, closed := false, fields := d }
  | _, _ =>
    { submitting := false, remoteCalled := false,
      toasts := [.error "Invalid time value"],
      added := none, closed := false, fields := d }

/-- Everything observable after one run of the login `onSubmit` handler. -/
structure LoginResult where
  submitting : Bool
  errorMsg : String
  navigatedTo : Option String
  remoteCalled : Bool
  deriving DecidableEq, Repr

/-- Model of the login `onSubmit`: clears the error banner, awaits `login`;
a truthy resolution navigates to `/dashboard`, a falsy one does nothing
further, a rejection stores `err.message || 'Invalid email or password'`
in the error banner; the `finally` clears `isSubmitting` on every path. -/
def loginOnSubmit (remote : Remote Bool) : LoginResult :=
  match remote with
  | .resolves success =>
    { submitting := false, errorMsg := "",
      navigatedTo := if success then some "/dashboard" else none,
      remoteCalled := true }
  | .rejects m =>
    { submitting := false, errorMsg := jsOrElse m "Invalid email or password",
      navigatedTo := none, remoteCalled := true }

/-- Result of one submit trigger on the policy form as dispatched by
react-hook-form `handleSubmit`: on an invalid form it writes the error
mapping and never runs the handler. -/
structure TriggerResult (α : Type) where
  errors : List (String × String)
  handlerRan : Bool
  remoteCalled : Bool
  submitting : Bool
  outcome : Option (PolicyResult α)
  deriving DecidableEq, Repr

/-- Model of `form.handleSubmit(onSubmit)` for the policy form: the
resolver runs first; only a form with no violations reaches `onSubmit`. -/
def policySubmitTrigger {α : Type} (st : PolicyValues) (remote : Remote α) : TriggerResult α :=
  match validatePolicy st with
  | [] =>
    let r := policyOnSubmit st remote
    { errors := [], handlerRan := true, remoteCalled := r.remoteCalled,
      submitting := r.submitting, outcome := some r }
  | e :: rest =>
    { errors := e :: rest, handlerRan := false, remoteCalled := false,
      submitting := false, outcome := none }

/-- Observable state of one form instance: the `isSubmitting` flag and the
number of remote calls issued so far. -/
structure FormMachine where
  submitting : Bool
  remoteCalls : Nat
  deriving DecidableEq, Repr

/-- Events of a form instance: a click on the submit control (carrying
whether the current values validate) and the terminal resolution of the
in-flight call. -/
inductive FormEvent where
  | click (formValid : Bool)
  | settle
  deriving DecidableEq, Repr

/-- One step of the form instance. Both submit buttons carry
`disabled={isSubmitting}`, so a click while a submission is in flight
dispatches nothing; an enabled click runs `handleSubmit`, which issues
the remote call only when validation passes; `settle` is the `finally`
clearing the flag on terminal resolution. -/
def formStep (s : FormMachine) (e : FormEvent) : FormMachine :=
  match e with
  | .click valid =>
    if s.submitting then s
    else if valid then { submitting := true, remoteCalls := s.remoteCalls + 1 }
    else s
  | .settle => { s with submitting := false }

/-- The spec's worked example input for the policy form. -/
def specExample : PolicyValues :=
  { name := "Life", company := "Met", value := "100000", premium := "50",
    startDate := "2024-01-01", endDate := "2025-01-01", nominees := "2" }

lemma fieldErrs_eq_nil (ok : Bool) (f m : String) : fieldErrs ok f m = [] ↔ ok = true := by
  cases ok <;> simp [fieldErrs]

lemma mem_fieldErrs (p : String × String) (ok : Bool) (f m : String) :
    p ∈ fieldErrs ok f m ↔ ok = false ∧ p = (f, m) := by
  cases ok <;> simp [fieldErrs]

lemma policyResolve_ok_iff (st : PolicyValues) :
    policyResolve st = .ok st ↔ validatePolicy st = [] := by
  unfold policyResolve
  cases h : validatePolicy st <;> simp

lemma validatePolicy_eq_nil_iff (st : PolicyValues) :
    validatePolicy st = [] ↔
      (nameCheck st.name = true ∧ companyCheck st.company = true ∧
       valueCheck st.value = true ∧ premiumCheck st.premium = true ∧
       startDateCheck st.startDate = true ∧ endDateCheck st.endDate = true ∧
       nomineesCheck st.nominees = true) := by
  simp [validatePolicy, fieldErrs_eq_nil]

lemma loginResolve_ok_iff (lv : LoginValues) :
    loginResolve lv = .ok lv ↔ validateLogin lv = [] := by
  unfold loginResolve
  cases h : validateLogin lv <;> simp

/-- C1: for both forms, validation returns Valid exactly when every field
check holds, and in the Invalid case the error mapping contains the
configured message for each violated field and nothing for any satisfied
field — all violations are reported together, never short-circuited
across fields. -/
theorem validation_reports_all_violations (st : PolicyValues) (lv : LoginValues) :
    (policyResolve st = .ok st ↔
      (nameCheck st.name = true ∧ companyCheck st.company = true ∧
       valueCheck st.value = true ∧ premiumCheck st.premium = true ∧
       startDateCheck st.startDate = true ∧ endDateCheck st.endDate = true ∧
       nomineesCheck st.nominees = true)) ∧
    (∀ m, ("name", m) ∈ validatePolicy st ↔
      nameCheck st.name = false ∧ m = "Policy name must be at least 3 characters") ∧
    (∀ m, ("company", m) ∈ validatePolicy st ↔
      companyCheck st.company = false ∧ m = "Company name must be at least 2 characters") ∧
    (∀ m, ("value", m) ∈ validatePolicy st ↔
      valueCheck st.value = false ∧ m = "Value must be a positive number") ∧
    (∀ m, ("premium", m) ∈ validatePolicy st ↔
      premiumCheck st.premium = false ∧ m = "Premium must be a positive number") ∧
    (∀ m, ("startDate", m) ∈ validatePolicy st ↔
      startDateCheck st.startDate = false ∧ m = "Start date is required") ∧
    (∀ m, ("endDate", m) ∈ validatePolicy st ↔
      endDateCheck st.endDate = false ∧ m = "End date is required") ∧
    (∀ m, ("nominees", m) ∈ validatePolicy st ↔
      nomineesCheck st.nominees = false ∧ m = "Nominees must be between 1 and 5") ∧
    (loginResolve lv = .ok lv ↔
      (emailCheck lv.email = true ∧ passwordCheck lv.password = true)) ∧
    (∀ m, ("email", m) ∈ validateLogin lv ↔
      emailCheck lv.email = false ∧ m = "Please enter a valid email address") ∧
    (∀ m, ("password", m) ∈ validateLogin lv ↔
      passwordCheck lv.password = false ∧ m = "Password is required") := by
  refine ⟨?_, ?_, ?_, ?_, ?_, ?_, ?_, ?_, ?_, ?_, ?_⟩
  · rw [policyResolve_ok_iff]
    simp [validatePolicy, fieldErrs_eq_nil]
  · intro m
    simp [validatePolicy, mem_fieldErrs]
  · intro m
    simp [validatePolicy, mem_fieldErrs]
  · intro m
    simp [validatePolicy, mem_fieldErrs]
  · intro m
    simp [validatePolicy, mem_fieldErrs]
  · intro m
    simp [validatePolicy, mem_fieldErrs]
  · intro m
    simp [validatePolicy, mem_fieldErrs]
  · intro m
    simp [validatePolicy, mem_fieldErrs]
  · rw [loginResolve_ok_iff]
    simp [validateLogin, fieldErrs_eq_nil]
  · intro m
    simp [validateLogin, mem_fieldErrs]
  · intro m
    simp [validateLogin, mem_fieldErrs]

lemma jsIsNaN_eq_false_iff (x : JSNum) : jsIsNaN x = false ↔ x ≠ .nan := by
  cases x <;> simp [jsIsNaN]

/-- C2 (code bug): the nominees check in the source is
`Number(val) > 0 && Number(val) <= 5`, so the input "0.5" — which parses
to one half, strictly below 1 — is accepted, although the schema's own
error message and the spec demand a count in [1,5]; the boundary inputs
behave as documented ("5" accepted, "6" rejected). -/
theorem nomineesCheck_accepts_below_one :
    nomineesCheck "0.5" = true ∧ jsNumber "0.5" = .num ⟨5, 10⟩ ∧
    Frac.val ⟨5, 10⟩ < 1 ∧ nomineesCheck "5" = true ∧ nomineesCheck "6" = false := by
  refine ⟨by decide, by decide, ?_, by decide, by decide⟩
  norm_num [Frac.val]

/-- C3 (counterexample): the spec's example form state with start date
"abc" — non-empty but not a parseable date — passes validation in full,
although the claim says such an input is rejected as Invalid. -/
theorem validation_accepts_unparseable_date :
    validatePolicy { specExample with startDate := "abc" } = [] ∧
    jsDateISO "abc" = none := by decide

/-- C3 (amended): the start and end date checks accept exactly the
non-empty strings — parseability is not examined by the validation
layer; a non-empty unparseable date instead makes the submit handler's
date conversion throw, so the remote call is never issued and the catch
path emits the RangeError's message. -/
theorem date_checks_nonempty_only {α : Type} (s : String) (d : PolicyValues)
    (remote : Remote α) (h : jsDateISO d.startDate = none) :
    (startDateCheck s = true ↔ 1 ≤ s.length) ∧
    (endDateCheck s = true ↔ 1 ≤ s.length) ∧
    (policyOnSubmit d remote).remoteCalled = false ∧
    (policyOnSubmit d remote).toasts = [ToastMsg.error "Invalid time value"] := by
  refine ⟨by simp [startDateCheck], by simp [endDateCheck], ?_, ?_⟩ <;>
    simp [policyOnSubmit, h]

/-- Witness for the amended C3: start date "abc" with the other fields of
the example state, against a resolving remote call. -/
theorem date_checks_nonempty_only_witness :
    jsDateISO ({ specExample with startDate := "abc" } : PolicyValues).startDate = none ∧
    ((startDateCheck "abc" = true ↔ 1 ≤ ("abc" : String).length) ∧
     (endDateCheck "abc" = true ↔ 1 ≤ ("abc" : String).length) ∧
     (policyOnSubmit { specExample with startDate := "abc" }
        (Remote.resolves (0 : Nat))).remoteCalled = false ∧
     (policyOnSubmit { specExample with startDate := "abc" }
        (Remote.resolves (0 : Nat))).toasts = [ToastMsg.error "Invalid time value"]) :=
  ⟨by decide,
   date_checks_nonempty_only "abc" { specExample with startDate := "abc" }
     (Remote.resolves (0 : Nat)) (by decide)⟩

/-- C4 (code bug): on the spec's example input validation passes and the
dates convert to the ISO timestamps, yet the dispatched payload's keys
are exactly name, company, value, premium, startDate, endDate and
status — the nominee count, collected and validated by the form, is
absent from the payload; value is the number 100000 and status the
string "Active". -/
theorem newPolicy_omits_nominees :
    validatePolicy specExample = [] ∧
    jsDateISO specExample.startDate = some "2024-01-01T00:00:00.000Z" ∧
    jsDateISO specExample.endDate = some "2025-01-01T00:00:00.000Z" ∧
    (newPolicy specExample "2024-01-01T00:00:00.000Z" "2025-01-01T00:00:00.000Z").map
        Prod.fst =
      ["name", "company", "value", "premium", "startDate", "endDate", "status"] ∧
    (newPolicy specExample "2024-01-01T00:00:00.000Z"
        "2025-01-01T00:00:00.000Z").lookup "nominees" = none ∧
    (newPolicy specExample "2024-01-01T00:00:00.000Z"
        "2025-01-01T00:00:00.000Z").lookup "value" =
      some (JVal.n (JSNum.num ⟨100000, 1⟩)) ∧
    (newPolicy specExample "2024-01-01T00:00:00.000Z"
        "2025-01-01T00:00:00.000Z").lookup "status" = some (JVal.s "Active") := by
  decide

/-- C5 (counterexample): the value "Infinity" satisfies the value check —
it is not NaN and compares greater than zero — so the whole form
validates, and the dispatched payload carries the non-finite Infinity as
its value, contradicting the claim that such an input is rejected by
validation and never dispatched. -/
theorem infinity_value_validates :
    validatePolicy { specExample with value := "Infinity" } = [] ∧
    (newPolicy { specExample with value := "Infinity" }
        "2024-01-01T00:00:00.000Z" "2025-01-01T00:00:00.000Z").lookup "value" =
      some (JVal.n JSNum.posInf) := by decide

/-- C5 (amended): the value and premium of every payload built from a
validated form state are not NaN and are strictly positive — a positive
fraction or positive infinity — but finiteness is not guaranteed. -/
theorem draft_numerics_positive (st : PolicyValues) (sISO eISO : String)
    (h : validatePolicy st = []) :
    (newPolicy st sISO eISO).lookup "value" = some (JVal.n (jsNumber st.value)) ∧
    (newPolicy st sISO eISO).lookup "premium" = some (JVal.n (jsNumber st.premium)) ∧
    jsNumber st.value ≠ JSNum.nan ∧ jsGtZero (jsNumber st.value) = true ∧
    jsNumber st.premium ≠ JSNum.nan ∧ jsGtZero (jsNumber st.premium) = true := by
  rw [validatePolicy_eq_nil_iff] at h
  obtain ⟨-, -, hv, hp, -, -, -⟩ := h
  rw [valueCheck, Bool.and_eq_true, Bool.not_eq_true', jsIsNaN_eq_false_iff] at hv
  rw [premiumCheck, Bool.and_eq_true, Bool.not_eq_true', jsIsNaN_eq_false_iff] at hp
  refine ⟨?_, ?_, hv.1, hv.2, hp.1, hp.2⟩ <;> simp [newPolicy, List.lookup]

/-- Witness for the amended C5 at the spec's example input. -/
theorem draft_numerics_positive_witness :
    validatePolicy specExample = [] ∧
    ((newPolicy specExample "2024-01-01T00:00:00.000Z"
        "2025-01-01T00:00:00.000Z").lookup "value" =
      some (JVal.n (jsNumber specExample.value)) ∧
     (newPolicy specExample "2024-01-01T00:00:00.000Z"
        "2025-01-01T00:00:00.000Z").lookup "premium" =
      some (JVal.n (jsNumber specExample.premium)) ∧
     jsNumber specExample.value ≠ JSNum.nan ∧
     jsGtZero (jsNumber specExample.value) = true ∧
     jsNumber specExample.premium ≠ JSNum.nan ∧
     jsGtZero (jsNumber specExample.premium) = true) :=
  ⟨by decide,
   draft_numerics_positive specExample "2024-01-01T00:00:00.000Z"
     "2025-01-01T00:00:00.000Z" (by decide)⟩

/-- C6: after any run of either submit handler — remote resolution, remote
rejection, or the thrown date-conversion error — the submitting flag is
false: the cleanup branch runs on every path. -/
theorem submitting_cleared_on_all_paths {α : Type} (d : PolicyValues) (remote : Remote α)
    (lremote : Remote Bool) :
    (policyOnSubmit d remote).submitting = false ∧
    (loginOnSubmit lremote).submitting = false := by
  constructor
  · cases hs : jsDateISO d.startDate <;> cases he : jsDateISO d.endDate <;>
      cases remote <;> simp [policyOnSubmit, hs, he]
  · cases lremote <;> rfl

/-- C7: when the policy call rejects, exactly one error toast is emitted,
carrying the collaborator's message when a non-falsy one is supplied and
the generic fallback otherwise; the field values are unchanged and
neither `onAddPolicy` nor `onClose` is invoked. -/
theorem rejected_policy_call {α : Type} (d : PolicyValues) (m : Option String)
    (hs : jsDateISO d.startDate ≠ none) (he : jsDateISO d.endDate ≠ none) :
    (policyOnSubmit (α := α) d (.rejects m)).toasts =
      [ToastMsg.error (jsOrElse m "Failed to add policy. Please try again.")] ∧
    (policyOnSubmit (α := α) d (.rejects m)).added = none ∧
    (policyOnSubmit (α := α) d (.rejects m)).closed = false ∧
    (policyOnSubmit (α := α) d (.rejects m)).fields = d ∧
    (∀ s, m = some s → s ≠ "" →
      jsOrElse m "Failed to add policy. Please try again." = s) ∧
    (m = none → jsOrElse m "Failed to add policy. Please try again." =
      "Failed to add policy. Please try again.") := by
  rcases hs' : jsDateISO d.startDate with _ | s1
  · exact absurd hs' hs
  rcases he' : jsDateISO d.endDate with _ | e1
  · exact absurd he' he
  refine ⟨?_, ?_, ?_, ?_, ?_, ?_⟩
  · simp [policyOnSubmit, hs', he']
  · simp [policyOnSubmit, hs', he']
  · simp [policyOnSubmit, hs', he']
  · simp [policyOnSubmit, hs', he']
  · rintro s rfl hs0
    simp [jsOrElse, hs0]
  · rintro rfl
    rfl

/-- Witness for C7: the example state with a call rejecting with message
"duplicate policy". -/
theorem rejected_policy_call_witness :
    (jsDateISO specExample.startDate ≠ none ∧ jsDateISO specExample.endDate ≠ none) ∧
    ((policyOnSubmit (α := Nat) specExample (.rejects (some "duplicate policy"))).toasts =
      [ToastMsg.error
        (jsOrElse (some "duplicate policy") "Failed to add policy. Please try again.")] ∧
     (policyOnSubmit (α := Nat) specExample
        (.rejects (some "duplicate policy"))).added = none ∧
     (policyOnSubmit (α := Nat) specExample
        (.rejects (some "duplicate policy"))).closed = false ∧
     (policyOnSubmit (α := Nat) specExample
        (.rejects (some "duplicate policy"))).fields = specExample ∧
     (∀ s, (some "duplicate policy" : Option String) = some s → s ≠ "" →
       jsOrElse (some "duplicate policy") "Failed to add policy. Please try again." = s) ∧
     ((some "duplicate policy" : Option String) = none →
       jsOrElse (some "duplicate policy") "Failed to add policy. Please try again." =
         "Failed to add policy. Please try again.")) :=
  ⟨⟨by decide, by decide⟩,
   rejected_policy_call specExample (some "duplicate policy") (by decide) (by decide)⟩

/-- C8: a submit trigger on a form state with at least one violated
constraint writes exactly the validation error mapping, never runs the
handler, issues no remote call, and leaves the submitting flag false. -/
theorem invalid_submit_blocks_dispatch {α : Type} (st : PolicyValues) (remote : Remote α)
    (h : validatePolicy st ≠ []) :
    (policySubmitTrigger st remote).errors = validatePolicy st ∧
    (policySubmitTrigger st remote).handlerRan = false ∧
    (policySubmitTrigger st remote).remoteCalled = false ∧
    (policySubmitTrigger st remote).submitting = false ∧
    (policySubmitTrigger st remote).outcome = none := by
  cases hv : validatePolicy st with
  | nil => exact absurd hv h
  | cons e rest => refine ⟨?_, ?_, ?_, ?_, ?_⟩ <;> simp [policySubmitTrigger, hv]

/-- Witness for C8: the spec's example of a negative value, "-5". -/
theorem invalid_submit_blocks_dispatch_witness :
    validatePolicy { specExample with value := "-5" } ≠ [] ∧
    ((policySubmitTrigger (α := Nat) { specExample with value := "-5" }
        (Remote.resolves 0)).errors =
      validatePolicy { specExample with value := "-5" } ∧
     (policySubmitTrigger (α := Nat) { specExample with value := "-5" }
        (Remote.resolves 0)).handlerRan = false ∧
     (policySubmitTrigger (α := Nat) { specExample with value := "-5" }
        (Remote.resolves 0)).remoteCalled = false ∧
     (policySubmitTrigger (α := Nat) { specExample with value := "-5" }
        (Remote.resolves 0)).submitting = false ∧
     (policySubmitTrigger (α := Nat) { specExample with value := "-5" }
        (Remote.resolves 0)).outcome = none) :=
  ⟨by decide,
   invalid_submit_blocks_dispatch { specExample with value := "-5" }
     (Remote.resolves 0) (by decide)⟩

/-- C9: a click on the submit control while a submission is in flight is a
no-op — the control is disabled, so nothing is dispatched and the count
of issued remote calls (indeed the whole state) is unchanged: at most
one submission is ever in flight per form instance. -/
theorem no_reentrant_submit (s : FormMachine) (valid : Bool) (h : s.submitting = true) :
    formStep s (.click valid) = s ∧
    (formStep s (.click valid)).remoteCalls = s.remoteCalls := by
  have hstep : formStep s (.click valid) = s := by simp [formStep, h]
  exact ⟨hstep, by rw [hstep]⟩

/-- Witness for C9: one call in flight, a second click changes nothing. -/
theorem no_reentrant_submit_witness :
    (FormMachine.mk true 1).submitting = true ∧
    (formStep ⟨true, 1⟩ (.click true) = ⟨true, 1⟩ ∧
     (formStep ⟨true, 1⟩ (.click true)).remoteCalls = (FormMachine.mk true 1).remoteCalls) :=
  ⟨rfl, no_reentrant_submit ⟨true, 1⟩ true rfl⟩

/-- C10: a login whose remote call resolves with a falsy success value
navigates nowhere, leaves the error banner cleared (the handler set it
to the empty string on entry and no branch writes another message), and
resets submitting to false — the form silently returns to idle, with no
notification of either outcome. -/
theorem falsy_login_is_silent :
    loginOnSubmit (.resolves false) =
      { submitting := false, errorMsg := "", navigatedTo := none,
        remoteCalled := true } := rfl

end PolicyVault
